import Mathlib

/-!
Verification of the `update_positions` integrator step of miniMD
(src/miniMD/miniMD.py) against its specification.

Shallow embedding choices:
* A numpy array is modelled by `NDArray`: a logical shape, an element dtype
  tag, and a flat list of element values.  Element values are rationals;
  the two IEEE operations the function uses — `np.sqrt` on a nonnegative
  double and the `astype(np.float32)` narrowing — are kept abstract as a
  pair of functions `FloatOps`, since no claim depends on their numeric
  values.
* The ambient random source (`np.random`) is a deterministic stream of
  pre-drawn standard-normal samples together with a position counter;
  `np.random.randn(*shape)` consumes `shape.prod` samples and advances the
  counter.  This makes "consumes exactly one draw" and "no draw on a failed
  call" statable.
* A python `float` scalar parameter is `PyFloat`: either NaN or a finite
  value.  Every comparison with NaN is false, as in IEEE arithmetic.
* The four `assert` statements become the error results of an
  `Except MDError NDArray`; the returned pair also carries the (possibly
  advanced) random-source state, which an aborted call leaves untouched,
  exactly as an exception thrown before the `np.random.randn` call would.
* dtype tags follow numba nopython-mode (C-like) promotion: an operation
  involving a float64 operand yields float64; the three scalar parameters
  are float64, the drawn array is float64 and is narrowed to float32 by
  `astype(np.float32)`.
-/

namespace MiniMD

/-- Element dtypes that occur in the model: single and double precision. -/
inductive DType where
  | f32
  | f64
deriving DecidableEq, Repr

/-- Numba nopython-mode type promotion (C-like): any operation with a
float64 operand produces float64. -/
def DType.promote : DType → DType → DType
  | DType.f32, DType.f32 => DType.f32
  | _, _ => DType.f64

/-- A dense numpy array: logical shape, element dtype, flat row-major data. -/
structure NDArray where
  shape : List Nat
  dtype : DType
  data : List ℚ
deriving DecidableEq, Repr

/-- Total element count of an array (`np.ndarray.size`). -/
def NDArray.size (a : NDArray) : Nat := a.shape.prod

/-- A python float scalar: NaN or a finite value. -/
inductive PyFloat where
  | nan
  | fin (q : ℚ)
deriving DecidableEq, Repr

/-- The strict-positivity test `p > 0` on python floats: every comparison
with NaN is false. -/
def PyFloat.gt0 : PyFloat → Bool
  | PyFloat.nan => false
  | PyFloat.fin q => decide (0 < q)

/-- The finite value of a `PyFloat`; only consulted after `gt0` has ruled
NaN out. -/
def PyFloat.val : PyFloat → ℚ
  | PyFloat.nan => 0
  | PyFloat.fin q => q

/-- The ambient random-number source: an infinite stream of pre-drawn
standard-normal samples and the position of the next unconsumed sample. -/
structure RNG where
  stream : Nat → ℚ
  pos : Nat

/-- `np.random.randn` consuming `n` samples: returns the next `n` samples
of the ambient stream (as float64 values) and the advanced source. -/
def RNG.randn (st : RNG) (n : Nat) : List ℚ × RNG :=
  ((List.range n).map (fun i => st.stream (st.pos + i)), ⟨st.stream, st.pos + n⟩)

/-- The two IEEE floating-point operations used by the step, kept abstract:
`round32` is the `astype(np.float32)` narrowing of one double, `sqrtQ` is
`np.sqrt` on a double. -/
structure FloatOps where
  round32 : ℚ → ℚ
  sqrtQ : ℚ → ℚ

/-- Failure taxonomy of the step, as the spec names the two kinds of
`AssertionError` the code can raise; the message is the one the failing
`assert` carries. -/
inductive MDError where
  | invalidParameter (msg : String)
  | shapeMismatch (msg : String)
deriving DecidableEq, Repr

/-- `update_positions` from src/miniMD/miniMD.py, translated statement by
statement.  The four asserts become error results carrying the exact
source messages; the success branch draws `current_x.size` samples,
narrows them to float32, and forms
`next_x = current_x + diffusion_coeff * dt * force * beta + prefactor * gauss_rand`
elementwise with `prefactor = sqrt (2 * diffusion_coeff * dt)`.  The
returned dtype follows the numba promotion of each arithmetic line. -/
def update_positions (ops : FloatOps) (current_x force : NDArray)
    (beta dt diffusion_coeff : PyFloat) (st : RNG) :
    Except MDError NDArray × RNG :=
  if PyFloat.gt0 dt = false then
    (Except.error (MDError.invalidParameter "Timestep must be positive."), st)
  else if PyFloat.gt0 diffusion_coeff = false then
    (Except.error (MDError.invalidParameter "Diffusion coefficient must be positive."), st)
  else if PyFloat.gt0 beta = false then
    (Except.error (MDError.invalidParameter "Temperature must be positive."), st)
  else if current_x.shape ≠ force.shape then
    (Except.error (MDError.shapeMismatch
      "Force and position vector must be of the same size, check your force function."), st)
  else
    let drawn := st.randn current_x.size
    let gauss_rand := drawn.1.map ops.round32
    let prefactor := ops.sqrtQ (2 * diffusion_coeff.val * dt.val)
    let dx := List.zipWith
      (fun fi gi => diffusion_coeff.val * dt.val * fi * beta.val + prefactor * gi)
      force.data gauss_rand
    let next_x := List.zipWith (fun xi di => xi + di) current_x.data dx
    let driftDtype := ((DType.f64.promote DType.f64).promote force.dtype).promote DType.f64
    let noiseDtype := DType.f64.promote DType.f32
    let dxDtype := driftDtype.promote noiseDtype
    (Except.ok ⟨current_x.shape, current_x.dtype.promote dxDtype, next_x⟩, drawn.2)

/-- Identity interpretations of the abstract float operations, used for
concrete evaluations. -/
def opsId : FloatOps := ⟨id, id⟩

/-- A random source whose pending samples are all zero. -/
def zeroRNG : RNG := ⟨fun _ => 0, 0⟩

theorem DType.promote_f64_left (d : DType) : DType.promote DType.f64 d = DType.f64 := by
  cases d <;> rfl

theorem DType.promote_f64_right (d : DType) : DType.promote d DType.f64 = DType.f64 := by
  cases d <;> rfl

/-- The success branch of `update_positions` in closed form: on a valid call
it returns the elementwise update together with the random source advanced
by exactly `current_x.size` samples, and the result dtype is float64. -/
theorem update_positions_ok_eq (ops : FloatOps) (x f : NDArray) (b h D : ℚ) (st : RNG)
    (hb : 0 < b) (hh : 0 < h) (hD : 0 < D) (hs : x.shape = f.shape) :
    update_positions ops x f (PyFloat.fin b) (PyFloat.fin h) (PyFloat.fin D) st =
      (Except.ok ⟨x.shape, DType.f64,
        List.zipWith (fun xi di => xi + di) x.data
          (List.zipWith (fun fi gi => D * h * fi * b + ops.sqrtQ (2 * D * h) * gi)
            f.data
            (((List.range x.size).map (fun i => st.stream (st.pos + i))).map ops.round32))⟩,
       ⟨st.stream, st.pos + x.size⟩) := by
  have hb' : PyFloat.gt0 (PyFloat.fin b) = true := by
    simp [PyFloat.gt0, hb]
  have hh' : PyFloat.gt0 (PyFloat.fin h) = true := by
    simp [PyFloat.gt0, hh]
  have hD' : PyFloat.gt0 (PyFloat.fin D) = true := by
    simp [PyFloat.gt0, hD]
  simp [update_positions, RNG.randn, PyFloat.val, hb', hh', hD', hs,
    DType.promote_f64_left, DType.promote_f64_right]

/-- Concrete fixture arrays for witnesses. -/
def xA : NDArray := ⟨[2], DType.f64, [1, 2]⟩

def fA : NDArray := ⟨[2], DType.f64, [3, 4]⟩

/-- Pointwise description of a valid call, shared by several results below:
the output has one entry per input entry and entry `i` is
`current_x[i] + D * dt * force[i] * beta + sqrt (2 * D * dt) * round32 (sample i)`. -/
theorem update_positions_pointwise (ops : FloatOps) (current_x force : NDArray)
    (b h D : ℚ) (st : RNG)
    (hb : 0 < b) (hh : 0 < h) (hD : 0 < D)
    (hs : current_x.shape = force.shape)
    (hx : current_x.data.length = current_x.size)
    (hf : force.data.length = force.size) :
    ∃ out st',
      update_positions ops current_x force (PyFloat.fin b) (PyFloat.fin h) (PyFloat.fin D) st
        = (Except.ok out, st') ∧
      out.data.length = current_x.size ∧
      ∀ i, i < current_x.size →
        out.data.getD i 0 =
          current_x.data.getD i 0
            + D * h * (force.data.getD i 0) * b
            + ops.sqrtQ (2 * D * h) * ops.round32 (st.stream (st.pos + i)) := by
  have hfx : force.data.length = current_x.size := by
    rw [hf]
    simp [NDArray.size, hs]
  refine ⟨_, _, update_positions_ok_eq ops current_x force b h D st hb hh hD hs, ?_, ?_⟩
  · simp [List.length_zipWith, hx, hfx]
  · intro i hi
    have hlen : (List.zipWith (fun xi di => xi + di) current_x.data
        (List.zipWith
          (fun fi gi => D * h * fi * b + ops.sqrtQ (2 * D * h) * gi)
          force.data
          (((List.range current_x.size).map (fun j => st.stream (st.pos + j))).map
            ops.round32))).length = current_x.size := by
      simp [List.length_zipWith, hx, hfx]
    have hxi : i < current_x.data.length := by
      rw [hx]
      exact hi
    have hfi : i < force.data.length := by
      rw [hfx]
      exact hi
    rw [List.getD_eq_getElem _ 0 (by rw [hlen]; exact hi),
      List.getD_eq_getElem _ 0 hxi, List.getD_eq_getElem _ 0 hfi]
    simp only [List.getElem_zipWith, List.getElem_map, List.getElem_range]
    ring

/-- C1: on every valid call (positive `beta`, `dt`, `diffusion_coeff`,
identical shapes) the returned `next_x` equals
`current_x + diffusion_coeff * dt * force * beta + sqrt (2 * diffusion_coeff * dt) * g`
elementwise, where `g` is the freshly drawn standard-normal array (the
`i`-th element of `next_x` is a function of the `i`-th elements of
`current_x`, `force` and the `i`-th fresh sample only — no cross-element
coupling). -/
theorem update_positions_elementwise (ops : FloatOps) (current_x force : NDArray)
    (b h D : ℚ) (st : RNG)
    (hb : 0 < b) (hh : 0 < h) (hD : 0 < D)
    (hs : current_x.shape = force.shape)
    (hx : current_x.data.length = current_x.size)
    (hf : force.data.length = force.size) :
    ∃ out st',
      update_positions ops current_x force (PyFloat.fin b) (PyFloat.fin h) (PyFloat.fin D) st
        = (Except.ok out, st') ∧
      out.data.length = current_x.size ∧
      ∀ i, i < current_x.size →
        out.data.getD i 0 =
          current_x.data.getD i 0
            + D * h * (force.data.getD i 0) * b
            + ops.sqrtQ (2 * D * h) * ops.round32 (st.stream (st.pos + i)) :=
  update_positions_pointwise ops current_x force b h D st hb hh hD hs hx hf

/-- Witness for C1 at a concrete valid call. -/
theorem update_positions_elementwise_witness :
    ∃ out st',
      update_positions opsId xA fA (PyFloat.fin 1) (PyFloat.fin 1) (PyFloat.fin 1) zeroRNG
        = (Except.ok out, st') ∧
      out.data.length = xA.size ∧
      ∀ i, i < xA.size →
        out.data.getD i 0 =
          xA.data.getD i 0 + 1 * 1 * (fA.data.getD i 0) * 1
            + opsId.sqrtQ (2 * 1 * 1) * opsId.round32 (zeroRNG.stream (zeroRNG.pos + i)) :=
  update_positions_elementwise opsId xA fA 1 1 1 zeroRNG (by norm_num) (by norm_num)
    (by norm_num) rfl (by decide) (by decide)

/-- C2 counterexample: at `dt = 0` the call does fail before returning a
configuration, but the message carried is the source's
"Timestep must be positive.", not the "timestep must be positive" stated
by the claim (the diffusion and temperature messages differ likewise). -/
theorem update_positions_param_msg_counterexample :
    (update_positions opsId xA fA (PyFloat.fin 1) (PyFloat.fin 0) (PyFloat.fin 1) zeroRNG).1
        = Except.error (MDError.invalidParameter "Timestep must be positive.") ∧
      MDError.invalidParameter "Timestep must be positive."
        ≠ MDError.invalidParameter "timestep must be positive" := by
  exact ⟨rfl, by decide⟩

/-- C2 (amended): a non-positive (or NaN) `dt` fails with `InvalidParameter`
"Timestep must be positive."; with `dt` accepted, a non-positive
`diffusion_coeff` fails with "Diffusion coefficient must be positive.";
with both accepted, a non-positive `beta` fails with
"Temperature must be positive.".  No configuration is returned and the
random source is returned untouched. -/
theorem update_positions_invalid_messages (ops : FloatOps) (x f : NDArray)
    (b h D : PyFloat) (st : RNG) :
    (PyFloat.gt0 h = false →
      update_positions ops x f b h D st
        = (Except.error (MDError.invalidParameter "Timestep must be positive."), st)) ∧
    (PyFloat.gt0 h = true → PyFloat.gt0 D = false →
      update_positions ops x f b h D st
        = (Except.error (MDError.invalidParameter
            "Diffusion coefficient must be positive."), st)) ∧
    (PyFloat.gt0 h = true → PyFloat.gt0 D = true → PyFloat.gt0 b = false →
      update_positions ops x f b h D st
        = (Except.error (MDError.invalidParameter "Temperature must be positive."), st)) := by
  refine ⟨fun h1 => ?_, fun h1 h2 => ?_, fun h1 h2 h3 => ?_⟩ <;>
    simp [update_positions, h1]
  · simp [h2]
  · simp [h2, h3]

/-- Witness for the amended C2: each of the three parameter failures at a
concrete call. -/
theorem update_positions_invalid_messages_witness :
    update_positions opsId xA fA (PyFloat.fin 1) (PyFloat.fin 0) (PyFloat.fin 1) zeroRNG
        = (Except.error (MDError.invalidParameter "Timestep must be positive."), zeroRNG) ∧
      update_positions opsId xA fA (PyFloat.fin 1) (PyFloat.fin 1) (PyFloat.fin (-2)) zeroRNG
        = (Except.error (MDError.invalidParameter
            "Diffusion coefficient must be positive."), zeroRNG) ∧
      update_positions opsId xA fA (PyFloat.fin 0) (PyFloat.fin 1) (PyFloat.fin 1) zeroRNG
        = (Except.error (MDError.invalidParameter "Temperature must be positive."), zeroRNG) :=
  ⟨(update_positions_invalid_messages opsId xA fA (PyFloat.fin 1) (PyFloat.fin 0)
      (PyFloat.fin 1) zeroRNG).1 (by decide),
   (update_positions_invalid_messages opsId xA fA (PyFloat.fin 1) (PyFloat.fin 1)
      (PyFloat.fin (-2)) zeroRNG).2.1 (by decide) (by decide),
   (update_positions_invalid_messages opsId xA fA (PyFloat.fin 0) (PyFloat.fin 1)
      (PyFloat.fin 1) zeroRNG).2.2 (by decide) (by decide) (by decide)⟩

/-- A fixture array whose shape differs from `xA`. -/
def fBad : NDArray := ⟨[3], DType.f64, [0, 0, 0]⟩

/-- C3 counterexample: a shape-mismatched call does fail with
`ShapeMismatch`, but the message carried is the source's
"Force and position vector must be of the same size, check your force
function.", not the "force and position must have the same shape" stated
by the claim. -/
theorem update_positions_shape_msg_counterexample :
    (update_positions opsId xA fBad (PyFloat.fin 1) (PyFloat.fin 1) (PyFloat.fin 1)
          zeroRNG).1
        = Except.error (MDError.shapeMismatch
            "Force and position vector must be of the same size, check your force function.") ∧
      MDError.shapeMismatch
          "Force and position vector must be of the same size, check your force function."
        ≠ MDError.shapeMismatch "force and position must have the same shape" := by
  exact ⟨rfl, by decide⟩

/-- C3 (amended): on every call whose scalar parameters pass the positivity
checks but whose `current_x` and `force` differ in shape, the operation
fails with `ShapeMismatch` carrying the message
"Force and position vector must be of the same size, check your force
function.", the random source untouched. -/
theorem update_positions_shape_mismatch (ops : FloatOps) (x f : NDArray)
    (b h D : PyFloat) (st : RNG)
    (hh : PyFloat.gt0 h = true) (hD : PyFloat.gt0 D = true) (hb : PyFloat.gt0 b = true)
    (hs : x.shape ≠ f.shape) :
    update_positions ops x f b h D st
      = (Except.error (MDError.shapeMismatch
          "Force and position vector must be of the same size, check your force function."), st) := by
  simp [update_positions, hh, hD, hb, hs]

/-- Witness for the amended C3 at a concrete mismatched call. -/
theorem update_positions_shape_mismatch_witness :
    update_positions opsId xA fBad (PyFloat.fin 1) (PyFloat.fin 1) (PyFloat.fin 1) zeroRNG
      = (Except.error (MDError.shapeMismatch
          "Force and position vector must be of the same size, check your force function."),
        zeroRNG) :=
  update_positions_shape_mismatch opsId xA fBad (PyFloat.fin 1) (PyFloat.fin 1)
    (PyFloat.fin 1) zeroRNG (by decide) (by decide) (by decide) (by decide)

/-- C4: every validation failure aborts the call before any computation or
random draw: whenever one of the four checks fails, the call returns an
error and hands back the random source exactly as it received it (same
stream, same position), so no sample was consumed and no partial effect
occurred. -/
theorem update_positions_fail_no_draw (ops : FloatOps) (x f : NDArray)
    (b h D : PyFloat) (st : RNG)
    (hbad : PyFloat.gt0 h = false ∨ PyFloat.gt0 D = false ∨ PyFloat.gt0 b = false ∨
      x.shape ≠ f.shape) :
    ∃ e, update_positions ops x f b h D st = (Except.error e, st) := by
  by_cases h1 : PyFloat.gt0 h = false
  · exact ⟨MDError.invalidParameter "Timestep must be positive.",
      by simp [update_positions, h1]⟩
  by_cases h2 : PyFloat.gt0 D = false
  · exact ⟨MDError.invalidParameter "Diffusion coefficient must be positive.",
      by simp [update_positions, h1, h2]⟩
  by_cases h3 : PyFloat.gt0 b = false
  · exact ⟨MDError.invalidParameter "Temperature must be positive.",
      by simp [update_positions, h1, h2, h3]⟩
  have h4 : x.shape ≠ f.shape := by tauto
  exact ⟨MDError.shapeMismatch
      "Force and position vector must be of the same size, check your force function.",
    by simp [update_positions, h1, h2, h3, h4]⟩

/-- Witness for C4 at a concrete invalid call. -/
theorem update_positions_fail_no_draw_witness :
    ∃ e, update_positions opsId xA fBad (PyFloat.fin 1) (PyFloat.fin 0) (PyFloat.fin 1)
        zeroRNG = (Except.error e, zeroRNG) :=
  update_positions_fail_no_draw opsId xA fBad (PyFloat.fin 1) (PyFloat.fin 0)
    (PyFloat.fin 1) zeroRNG (Or.inl (by decide))

/-- A rank-2 fixture array. -/
def xM : NDArray := ⟨[2, 2], DType.f64, [1, 2, 3, 4]⟩

/-- A rank-2 fixture force of the same shape as `xM`. -/
def fM : NDArray := ⟨[2, 2], DType.f64, [5, 6, 7, 8]⟩

/-- C5: for all valid inputs the returned configuration has exactly the
shape of `current_x`, whatever its rank and extents. -/
theorem update_positions_shape_preserved (ops : FloatOps) (current_x force : NDArray)
    (b h D : ℚ) (st : RNG)
    (hb : 0 < b) (hh : 0 < h) (hD : 0 < D)
    (hs : current_x.shape = force.shape) :
    ∃ out st',
      update_positions ops current_x force (PyFloat.fin b) (PyFloat.fin h) (PyFloat.fin D) st
        = (Except.ok out, st') ∧ out.shape = current_x.shape :=
  ⟨_, _, update_positions_ok_eq ops current_x force b h D st hb hh hD hs, rfl⟩

/-- Witness for C5 at a concrete rank-2 call. -/
theorem update_positions_shape_preserved_witness :
    ∃ out st',
      update_positions opsId xM fM (PyFloat.fin 1) (PyFloat.fin 1) (PyFloat.fin 1) zeroRNG
        = (Except.ok out, st') ∧ out.shape = xM.shape :=
  update_positions_shape_preserved opsId xM fM 1 1 1 zeroRNG (by norm_num) (by norm_num)
    (by norm_num) rfl

/-- C6: with the random draw held at an all-zeros array (and the float32
narrowing fixing zero, as IEEE narrowing does), a valid call returns
exactly `current_x + diffusion_coeff * dt * beta * force`; if moreover
`force` is all zeros, it returns exactly `current_x`. -/
theorem update_positions_zero_noise (ops : FloatOps) (current_x force : NDArray)
    (b h D : ℚ) (st : RNG)
    (hb : 0 < b) (hh : 0 < h) (hD : 0 < D)
    (hs : current_x.shape = force.shape)
    (hx : current_x.data.length = current_x.size)
    (hf : force.data.length = force.size)
    (h0 : ∀ i, st.stream (st.pos + i) = 0)
    (hr : ops.round32 0 = 0) :
    ∃ out st',
      update_positions ops current_x force (PyFloat.fin b) (PyFloat.fin h) (PyFloat.fin D) st
        = (Except.ok out, st') ∧
      out.data.length = current_x.size ∧
      (∀ i, i < current_x.size →
        out.data.getD i 0 =
          current_x.data.getD i 0 + D * h * b * (force.data.getD i 0)) ∧
      ((∀ i, i < current_x.size → force.data.getD i 0 = 0) →
        out.data = current_x.data) := by
  obtain ⟨out, st', heq, hlen, hpt⟩ :=
    update_positions_pointwise ops current_x force b h D st hb hh hD hs hx hf
  have key : ∀ i, i < current_x.size →
      out.data.getD i 0 =
        current_x.data.getD i 0 + D * h * b * (force.data.getD i 0) := by
    intro i hi
    rw [hpt i hi, h0 i, hr]
    ring
  refine ⟨out, st', heq, hlen, key, fun hfz => ?_⟩
  apply List.ext_getElem (by rw [hlen, hx])
  intro n h1 h2
  have hn : n < current_x.size := by
    rw [← hlen]
    exact h1
  have hk := key n hn
  rw [hfz n hn, mul_zero, add_zero, List.getD_eq_getElem _ 0 h1,
    List.getD_eq_getElem _ 0 h2] at hk
  exact hk

/-- An all-zeros force of the shape of `xA`. -/
def fZ : NDArray := ⟨[2], DType.f64, [0, 0]⟩

/-- Witness for C6 at a concrete zero-noise, zero-force call. -/
theorem update_positions_zero_noise_witness :
    ∃ out st',
      update_positions opsId xA fZ (PyFloat.fin 1) (PyFloat.fin 1) (PyFloat.fin 1) zeroRNG
        = (Except.ok out, st') ∧
      out.data.length = xA.size ∧
      (∀ i, i < xA.size →
        out.data.getD i 0 = xA.data.getD i 0 + 1 * 1 * 1 * (fZ.data.getD i 0)) ∧
      ((∀ i, i < xA.size → fZ.data.getD i 0 = 0) → out.data = xA.data) :=
  update_positions_zero_noise opsId xA fZ 1 1 1 zeroRNG (by norm_num) (by norm_num)
    (by norm_num) rfl (by decide) (by decide) (fun i => rfl) rfl

/-- C8: every call that returns a configuration has consumed exactly one
draw — `current_x.size` samples, one full array of the shape of
`current_x` — from the ambient random source, and its only effect on the
ambient state is advancing that source's position by that amount: the
stream itself is handed back unchanged, and the model has no other state
to affect (no I/O, no logging, no globals). -/
theorem update_positions_consumes_one_draw (ops : FloatOps) (x f : NDArray)
    (b h D : PyFloat) (st : RNG) (out : NDArray) (st' : RNG)
    (hok : update_positions ops x f b h D st = (Except.ok out, st')) :
    st'.stream = st.stream ∧ st'.pos = st.pos + x.size := by
  by_cases h1 : PyFloat.gt0 h = false
  · simp [update_positions, h1] at hok
  by_cases h2 : PyFloat.gt0 D = false
  · simp [update_positions, h1, h2] at hok
  by_cases h3 : PyFloat.gt0 b = false
  · simp [update_positions, h1, h2, h3] at hok
  by_cases h4 : x.shape = f.shape
  · simp [update_positions, h1, h2, h3, h4, RNG.randn] at hok
    rw [← hok.2]
    exact ⟨rfl, rfl⟩
  · simp [update_positions, h1, h2, h3, h4] at hok

/-- Witness for C8 at a concrete successful call. -/
theorem update_positions_consumes_one_draw_witness :
    (update_positions opsId xA fA (PyFloat.fin 1) (PyFloat.fin 1) (PyFloat.fin 1)
          zeroRNG).2.stream = zeroRNG.stream ∧
      (update_positions opsId xA fA (PyFloat.fin 1) (PyFloat.fin 1) (PyFloat.fin 1)
          zeroRNG).2.pos = zeroRNG.pos + xA.size := by
  have hok := update_positions_ok_eq opsId xA fA 1 1 1 zeroRNG (by norm_num) (by norm_num)
    (by norm_num) rfl
  have hdraw := update_positions_consumes_one_draw opsId xA fA (PyFloat.fin 1)
    (PyFloat.fin 1) (PyFloat.fin 1) zeroRNG _ _ hok
  rw [hok]
  exact hdraw

/-- A float32 fixture array. -/
def xF32 : NDArray := ⟨[1], DType.f32, [5]⟩

/-- C9 counterexample: on a valid call whose inputs are float32, the
returned array is float64 — the float64 scalar parameters dominate the
numba type promotion — so the result's element type differs from the
input's element type, beyond the intended narrowing of the random term. -/
theorem update_positions_dtype_counterexample :
    ∃ out, (update_positions opsId xF32 xF32 (PyFloat.fin 1) (PyFloat.fin 1) (PyFloat.fin 1)
        zeroRNG).1 = Except.ok out ∧ out.dtype ≠ xF32.dtype := by
  have hok := update_positions_ok_eq opsId xF32 xF32 1 1 1 zeroRNG (by norm_num)
    (by norm_num) (by norm_num) rfl
  exact ⟨_, congrArg Prod.fst hok, by decide⟩

/-- Abstract float operations whose float32 narrowing truncates everything
to zero; used to witness that only the narrowed draw matters. -/
def opsTrunc : FloatOps := ⟨fun _ => 0, id⟩

/-- C9 (amended): the random draw is narrowed to float32 before being
combined — two ambient sources whose raw draws agree after the `round32`
narrowing produce identical results — and the returned array's element
type is always float64 (the numba promotion of the input dtypes with the
float64 scalar parameters), which coincides with the element type of
`current_x` exactly when `current_x` is float64. -/
theorem update_positions_narrowing (ops : FloatOps) (x f : NDArray)
    (b h D : PyFloat) (st1 st2 : RNG)
    (hpos : st1.pos = st2.pos)
    (hround : ∀ i, ops.round32 (st1.stream i) = ops.round32 (st2.stream i)) :
    (update_positions ops x f b h D st1).1 = (update_positions ops x f b h D st2).1 ∧
    ∀ out, (update_positions ops x f b h D st1).1 = Except.ok out →
      out.dtype = DType.f64 := by
  have hg2 : List.map (ops.round32 ∘ fun i => st1.stream (st1.pos + i)) (List.range x.size)
      = List.map (ops.round32 ∘ fun i => st2.stream (st2.pos + i)) (List.range x.size) := by
    refine List.map_congr_left ?_
    intro i _
    simp only [Function.comp]
    rw [hpos]
    exact hround (st2.pos + i)
  by_cases h1 : PyFloat.gt0 h = false
  · refine ⟨by simp [update_positions, h1], fun out hout => ?_⟩
    simp [update_positions, h1] at hout
  by_cases h2 : PyFloat.gt0 D = false
  · refine ⟨by simp [update_positions, h1, h2], fun out hout => ?_⟩
    simp [update_positions, h1, h2] at hout
  by_cases h3 : PyFloat.gt0 b = false
  · refine ⟨by simp [update_positions, h1, h2, h3], fun out hout => ?_⟩
    simp [update_positions, h1, h2, h3] at hout
  by_cases h4 : x.shape = f.shape
  · constructor
    · simp [update_positions, h1, h2, h3, h4, RNG.randn, hg2]
    · intro out hout
      simp [update_positions, h1, h2, h3, h4, RNG.randn] at hout
      rw [← hout]
      show x.dtype.promote
          ((((DType.f64.promote DType.f64).promote f.dtype).promote DType.f64).promote
            (DType.f64.promote DType.f32)) = DType.f64
      cases x.dtype <;> cases f.dtype <;> rfl
  · refine ⟨by simp [update_positions, h1, h2, h3, h4], fun out hout => ?_⟩
    simp [update_positions, h1, h2, h3, h4] at hout

/-- Witness for the amended C9: two different ambient streams that agree
after narrowing, at a concrete valid call. -/
theorem update_positions_narrowing_witness :
    (update_positions opsTrunc xA fA (PyFloat.fin 1) (PyFloat.fin 1) (PyFloat.fin 1)
          zeroRNG).1
        = (update_positions opsTrunc xA fA (PyFloat.fin 1) (PyFloat.fin 1) (PyFloat.fin 1)
            ⟨fun i => (i : ℚ), 0⟩).1 ∧
      ∀ out, (update_positions opsTrunc xA fA (PyFloat.fin 1) (PyFloat.fin 1) (PyFloat.fin 1)
          zeroRNG).1 = Except.ok out → out.dtype = DType.f64 :=
  update_positions_narrowing opsTrunc xA fA (PyFloat.fin 1) (PyFloat.fin 1) (PyFloat.fin 1)
    zeroRNG ⟨fun i => (i : ℚ), 0⟩ rfl (fun _ => rfl)

/-- C10: a NaN `dt`, `diffusion_coeff` or `beta` fails its strict-positivity
check — no comparison with NaN is true — so the call is rejected through
the same validation path as a non-positive parameter, with the random
source untouched: the draw and the update formula are never reached, and
a non-finite parameter is never silently integrated. -/
theorem update_positions_nan_rejected (ops : FloatOps) (x f : NDArray) (st : RNG) :
    (∀ b D : PyFloat, update_positions ops x f b PyFloat.nan D st
        = (Except.error (MDError.invalidParameter "Timestep must be positive."), st)) ∧
    (∀ b h : PyFloat, PyFloat.gt0 h = true →
      update_positions ops x f b h PyFloat.nan st
        = (Except.error (MDError.invalidParameter
            "Diffusion coefficient must be positive."), st)) ∧
    (∀ h D : PyFloat, PyFloat.gt0 h = true → PyFloat.gt0 D = true →
      update_positions ops x f PyFloat.nan h D st
        = (Except.error (MDError.invalidParameter "Temperature must be positive."), st)) := by
  have gt0_nan : PyFloat.gt0 PyFloat.nan = false := rfl
  refine ⟨fun b D => ?_, fun b h hh => ?_, fun h D hh hD => ?_⟩
  · simp [update_positions, gt0_nan]
  · simp [update_positions, gt0_nan, hh]
  · simp [update_positions, gt0_nan, hh, hD]

/-- Witness for C10: each scalar parameter set to NaN at a concrete call. -/
theorem update_positions_nan_rejected_witness :
    update_positions opsId xA fA (PyFloat.fin 1) PyFloat.nan (PyFloat.fin 1) zeroRNG
        = (Except.error (MDError.invalidParameter "Timestep must be positive."), zeroRNG) ∧
      update_positions opsId xA fA (PyFloat.fin 1) (PyFloat.fin 1) PyFloat.nan zeroRNG
        = (Except.error (MDError.invalidParameter
            "Diffusion coefficient must be positive."), zeroRNG) ∧
      update_positions opsId xA fA PyFloat.nan (PyFloat.fin 1) (PyFloat.fin 1) zeroRNG
        = (Except.error (MDError.invalidParameter "Temperature must be positive."), zeroRNG) :=
  ⟨(update_positions_nan_rejected opsId xA fA zeroRNG).1 (PyFloat.fin 1) (PyFloat.fin 1),
   (update_positions_nan_rejected opsId xA fA zeroRNG).2.1 (PyFloat.fin 1) (PyFloat.fin 1)
     (by decide),
   (update_positions_nan_rejected opsId xA fA zeroRNG).2.2 (PyFloat.fin 1) (PyFloat.fin 1)
     (by decide) (by decide)⟩

end MiniMD
